import Mathlib

/-
  Verification of the RMG job driver (rmgpy/rmg/main.py) against its
  natural-language specification.  The Python source is shallowly embedded:
  the wall-time parsing, the main model-generation loop's control state,
  the wall-time early-stop heuristic, and the restart checkpoint
  save/load logic are translated into executable Lean definitions, and the
  spec's claims are settled as theorems about those definitions.
-/

namespace RMGSpec

/-! ## Wall-time parsing (main.py lines 224-238)

`execute` parses the command-line wall-time argument.  `args.walltime` is
the literal string '0' by default (meaning no budget); otherwise it is a
one-element list holding the user's string, from which `args.walltime[0]`
extracts the duration string, split on ':' into up to four integer fields.
We model the duration string directly; splitting and integer parsing are
embedded as structurally recursive functions on the character list so that
they evaluate inside the kernel. -/

/-- Python's `str.split(sep)` for a one-character separator: the empty
string yields one empty field, and each separator character starts a new
field.  Models `data = args.walltime[0].split(':')` at line 228. -/
def splitFields : List Char → List (List Char)
  | [] => [[]]
  | c :: cs =>
      match splitFields cs with
      | [] => []
      | f :: fs => if c = ':' then [] :: f :: fs else (c :: f) :: fs

/-- A decimal digit run folded to a natural number; any non-digit fails,
as Python's `int()` raises `ValueError` on malformed input. -/
def natOfDigitsAux : Nat → List Char → Option Nat
  | acc, [] => some acc
  | acc, c :: cs =>
      if c.isDigit then natOfDigitsAux (10 * acc + (c.toNat - 48)) cs else none

/-- Python's `int(field)` on an optionally signed decimal string: an empty
field or a non-digit character is a failure (`ValueError`). -/
def pyInt : List Char → Option Int
  | [] => none
  | '-' :: cs =>
      match cs with
      | [] => none
      | _ => (natOfDigitsAux 0 cs).map (fun n => -(n : Int))
  | '+' :: cs =>
      match cs with
      | [] => none
      | _ => (natOfDigitsAux 0 cs).map (fun n => (n : Int))
  | cs => (natOfDigitsAux 0 cs).map (fun n => (n : Int))

/-- Python's `int(field)`, with the `ValueError` modelled as `Except.error`. -/
def intField (cs : List Char) : Except String Int :=
  match pyInt cs with
  | some v => Except.ok v
  | none => Except.error "invalid literal for int() with base 10"

/-- Lines 224-238 of `RMG.execute`: set `self.wallTime` from the wall-time
argument.  The literal string '0' yields no budget; otherwise the string is
split on ':' and combined as seconds, minutes:seconds, hours:minutes:seconds
or days:hours:minutes:seconds; more than four fields raises `ValueError`.
The fields are converted innermost (`data[-1]`, the seconds field) first,
exactly as the Python addition evaluates left to right. -/
def setWallTime (walltime : String) : Except String Int :=
  if walltime = "0" then Except.ok 0
  else
    match splitFields walltime.data with
    | [a] => intField a
    | [b, a] => do
        let av ← intField a
        let bv ← intField b
        Except.ok (av + 60 * bv)
    | [c, b, a] => do
        let av ← intField a
        let bv ← intField b
        let cv ← intField c
        Except.ok (av + 60 * bv + 3600 * cv)
    | [d, c, b, a] => do
        let av ← intField a
        let bv ← intField b
        let cv ← intField c
        let dv ← intField d
        Except.ok (av + 60 * bv + 3600 * cv + 86400 * dv)
    | _ => Except.error "Invalid format for wall time; should be HH:MM:SS."

/-! ## The main model-generation loop (main.py lines 285-424)

Each iteration runs every reaction system's simulation against the current
core/edge model.  `reactionSystem.simulate(...)` is an external collaborator
returning `(terminated, obj)` where `obj` is `None`, a `Species`, or a
`PDepNetwork`; these per-system results are the loop's inputs.  Species and
networks are identified by their (stable) object identity, modelled as a
natural-number id.  When the flagged object is a network, line 327 replaces
it by the pair `(network, network.getMaximumLeakSpecies(T, P))` at the
flagging system's temperature and pressure; `getMaximumLeakSpecies` is
external, modelled as a function from the system's index and the network id
to a species id. -/

/-- An object a simulation may flag: a `Species` or a `PDepNetwork`
(identified by object identity). -/
inductive SimObject where
  | species (id : Nat)
  | network (id : Nat)
deriving DecidableEq, Repr

/-- The pair returned by one `reactionSystem.simulate(...)` call:
`terminated` and the optional flagged object (lines 303-316). -/
structure SimResult where
  terminated : Bool
  obj : Option SimObject
deriving DecidableEq, Repr

/-- An entry of `objectsToEnlarge`: a flagged species, or the tuple
`(network, maximum-leak species)` built at line 327. -/
inductive EnlargeObject where
  | species (id : Nat)
  | networkPair (nid : Nat) (leakId : Nat)
deriving DecidableEq, Repr

/-- Lines 322-328 for one system: the contribution of its simulation result
to `objectsToEnlarge`.  `leak idx n` models
`obj.getMaximumLeakSpecies(reactionSystem.T.value, reactionSystem.P.value)`
for the system at index `idx`. -/
def objOf (leak : Nat → Nat → Nat) (idx : Nat) (r : SimResult) :
    List EnlargeObject :=
  match r.obj with
  | none => []
  | some (SimObject.species i) => [EnlargeObject.species i]
  | some (SimObject.network n) => [EnlargeObject.networkPair n (leak idx n)]

/-- Lines 291-329: the pass over `self.reactionSystems`, starting from
`done = True`, `objectsToEnlarge = []`, `allTerminated = True`.  Returns
`(done, objectsToEnlarge, allTerminated)`: `done` is cleared by any truthy
flagged object (line 329), `allTerminated` is and-ed with each system's
`terminated` (line 317), and flagged objects accumulate in system order
(line 328). -/
def surveySystems (leak : Nat → Nat → Nat) :
    Nat → List SimResult → Bool × List EnlargeObject × Bool
  | _, [] => (true, [], true)
  | idx, r :: rest =>
      let s := surveySystems leak (idx + 1) rest
      (r.obj.isNone && s.1, objOf leak idx r ++ s.2.1, r.terminated && s.2.2)

/-- A mutation of the reaction model performed by one iteration:
`self.reactionModel.prune(...)` (line 339) or
`self.reactionModel.enlarge(object)` (line 346). -/
inductive ModelEvent where
  | prune
  | enlarge (o : EnlargeObject)
deriving DecidableEq, Repr

/-- Lines 334-346: the ordered list of model mutations of one iteration.
When `done` nothing happens; otherwise, if all systems terminated, `prune`
runs first, and then `enlarge` is called once for each element of
`list(set(objectsToEnlarge))` — the flagged objects deduplicated by
identity (line 344). -/
def iterationEvents (done allTerminated : Bool)
    (objectsToEnlarge : List EnlargeObject) : List ModelEvent :=
  if done then []
  else
    (if allTerminated then [ModelEvent.prune] else []) ++
      (objectsToEnlarge.dedup.map ModelEvent.enlarge)

/-- The model mutations of one whole iteration, from the per-system
simulation results. -/
def iterationTrace (leak : Nat → Nat → Nat) (results : List SimResult) :
    List ModelEvent :=
  let s := surveySystems leak 0 results
  iterationEvents s.1 s.2.2 s.2.1

/-- Lines 405-408: the graceful-stop heuristic evaluated at the end of each
iteration.  `execTime` holds the cumulative elapsed times recorded so far
(floats in the source, modelled as rationals); with a positive budget and
at least two recorded iterations, the loop stops when
`execTime[-1] + 3 * (execTime[-1] - execTime[-2])` exceeds the budget. -/
def shouldStopWallTime (wallTime : ℚ) (execTime : List ℚ) : Bool :=
  if 0 < wallTime ∧ 1 < execTime.length then
    let t := execTime.getLastD 0
    let dt := t - execTime.dropLast.getLastD 0
    decide (wallTime < t + 3 * dt)
  else false

/-- How the main loop ends: falling out of `while not done` to the
MODEL GENERATION COMPLETED message (line 420), or taking the wall-time
early-return branch (lines 408-416).  In this revision the wall-time branch
prints its first messages and then hits line 414, which reads the bare name
`reactionModel` — unbound in `execute`, whose attribute is
`self.reactionModel` — so the branch actually dies with a `NameError`
instead of reporting the model size and returning. -/
inductive ExitReason where
  | completed
  | walltimeStop
deriving DecidableEq, Repr

/-- Lines 285-424: the main loop, with the per-iteration simulation results
and the cumulative elapsed time at the end of each iteration supplied as
inputs (`sims i` and `times i` for iteration `i`).  Fuel bounds the
recursion; `none` means the fuel ran out before the loop ended.  On exit
the iteration count (number of completed iterations) is returned with the
reason.  Within each iteration the body computes `done`, `objectsToEnlarge`
and `allTerminated` (lines 291-329), mutates the model accordingly (lines
334-346; tracked by `iterationTrace`, not needed for the control flow),
appends to `execTime` (line 382), runs the wall-time check (lines 405-416),
and loops back to the `while not done` test (line 286). -/
def runLoop (leak : Nat → Nat → Nat) (sims : Nat → List SimResult)
    (times : Nat → ℚ) (wallTime : ℚ) :
    Nat → Nat → List ℚ → Option (ExitReason × Nat)
  | 0, _, _ => none
  | fuel + 1, iter, execTime =>
      if shouldStopWallTime wallTime (execTime ++ [times iter]) then
        some (ExitReason.walltimeStop, iter + 1)
      else if (surveySystems leak 0 (sims iter)).1 then
        some (ExitReason.completed, iter + 1)
      else runLoop leak sims times wallTime fuel (iter + 1)
        (execTime ++ [times iter])

/-! ## Restart file saving (main.py lines 541-561)

`saveRestartFile(path, reactionModel, delay)` skips the write when a file
already exists at `path` and is younger than `delay` seconds; otherwise it
pickles the model to `path`.  The durable store at `path` is modelled as
`Option (mtime, content)`; timestamps are rationals standing for the real
values of `time.time()` and `os.path.getmtime(path)`. -/

/-- Lines 552-561: the state of the file at `path` after the call.  The
guard `os.path.exists(path) and time.time() - os.path.getmtime(path) < delay`
returns early, leaving the file untouched; otherwise the model is pickled
to `path`, which stamps the file with the current time. -/
def saveRestartFile {α : Type} (now delay : ℚ) (file : Option (ℚ × α))
    (reactionModel : α) : Option (ℚ × α) :=
  match file with
  | some (mtime, content) =>
      if now - mtime < delay then some (mtime, content)
      else some (now, reactionModel)
  | none => some (now, reactionModel)

/-! ## Restart file paths and serialization format (lines 246, 273, 373, 557-561) -/

/-- A serialized checkpoint blob: either a bare pickle or a gzip layer over
a blob.  `cPickle.dump(reactionModel, f, ...)` at line 560 writes a bare
pickle; no gzip layer is ever applied, despite the comment at line 557. -/
inductive Blob (α : Type) where
  | pickled (m : α)
  | gzipped (b : Blob α)

/-- Lines 559-560: the blob actually written by `saveRestartFile` is the
bare (uncompressed) pickle of the model. -/
def savedRestartBlob {α : Type} (reactionModel : α) : Blob α :=
  Blob.pickled reactionModel

/-- Lines 273 and 373: both calls to `saveRestartFile` in `execute` write to
`os.path.join(self.outputDirectory, 'restart.pkl')`. -/
def restartSavePath (outputDirectory : String) : String :=
  outputDirectory ++ "/restart.pkl"

/-- Line 246: when `execute` is invoked with the restart flag it reads
`os.path.join(self.outputDirectory, 'restart.pkl.gz')` (the same path whose
size the statistics code at lines 392-396 inspects). -/
def restartLoadPath (outputDirectory : String) : String :=
  outputDirectory ++ "/restart.pkl.gz"

/-! ## Restart file loading (main.py lines 244-246 and 476-539)

`loadRestartFile` unpickles the reaction model and then runs repair passes
over the stale cross-references.  The pass over the termination criteria
(lines 493-496) completes, but line 499 then iterates
`for reactionSystem in reactionSystems:` — and `reactionSystems` is bound
neither locally in `loadRestartFile` nor at module scope (the job's
attribute is `self.reactionSystems`), so the Python name lookup raises
`NameError` there and the function never returns.  Everything after line
499 — the rebuild of the initial mole fractions and the whole
reaction-family repair pass of lines 506-536 — is consequently dead code
in this revision, which the embedding records as an unconditional error
after the completed termination pass. -/

/-- A species as the restart repair passes see it: the canonical form of
`species.molecule[0]`, the label, and the reactivity flag. -/
structure RSpecies where
  molecule : Nat
  label : String
  reactive : Bool
deriving DecidableEq, Repr

/-- A termination criterion: a target time (`TerminationTime`) or a target
conversion of a tracked species (`TerminationConversion`). -/
inductive Termination where
  | time (t : ℚ)
  | conversion (species : RSpecies) (conv : ℚ)
deriving DecidableEq, Repr

/-- One reaction system as the restart repair passes see it: its operating
point and its initial-mole-fraction mapping. -/
structure ReactionSystem where
  T : ℚ
  P : ℚ
  initialMoleFractions : List (RSpecies × ℚ)
deriving DecidableEq, Repr

/-- A reaction's family cross-references: the label of the family object
`rxn.family` points to and the label of the one `rxn.reverse.family`
points to (lines 534-535 would repoint both). -/
structure RRxn where
  family : String
  revFamily : String
deriving DecidableEq, Repr

/-- The unpickled reaction model, restricted to what lines 476-539 touch:
its owned species, its termination criteria, its reactions with their
family references, and the family labels keying its reaction index
(`reactionModel.reactionDict`). -/
structure RestartModel where
  speciesList : List RSpecies
  termination : List Termination
  reactions : List RRxn
  reactionDict : List String
deriving DecidableEq, Repr

/-- The attributes of the `RMG` job object that the restart branch of
`execute` could touch: the reaction model built from the input file
(identified by object identity) and the reaction systems. -/
structure RMGJob where
  reactionModel : Nat
  reactionSystems : List ReactionSystem
deriving DecidableEq, Repr

/-- A raised Python exception, by kind and offending name. -/
inductive PyError where
  | nameError (name : String)
deriving DecidableEq, Repr

/-- Modelled from the spec: `CoreEdgeReactionModel.makeNewSpecies` lives in
`model.py`, which is not part of this source.  Per the spec it resolves a
species against the species owned by the model by structure, label and
reactivity — not by in-memory identity — returning the owned equivalent
(with `isNew = False`) or a freshly created species (`isNew = True`). -/
def makeNewSpecies (owned : List RSpecies) (molecule : Nat) (label : String)
    (reactive : Bool) : RSpecies × Bool :=
  match owned.find? fun s =>
      s.molecule == molecule && s.label == label && s.reactive == reactive with
  | some s => (s, false)
  | none => ({ molecule := molecule, label := label, reactive := reactive }, true)

/-- Lines 493-496: every `TerminationConversion` criterion of the unpickled
model has its species reference re-bound through
`reactionModel.makeNewSpecies(term.species.molecule[0], term.species.label,
term.species.reactive)`; other criteria are untouched. -/
def rebindTermination (reactionModel : RestartModel) : List Termination :=
  reactionModel.termination.map fun term =>
    match term with
    | Termination.conversion sp conv =>
        Termination.conversion
          (makeNewSpecies reactionModel.speciesList sp.molecule sp.label
            sp.reactive).1 conv
    | t => t

/-- Lines 476-539: `loadRestartFile` as it actually executes in this
revision.  The model is unpickled (lines 485-487, here the `checkpoint`
input), the termination criteria are re-bound (lines 493-496), and then
line 499 raises `NameError` on the unbound bare name `reactionSystems`, so
the mole-fraction rebuild (lines 499-504) and the family repair pass
(lines 506-536) never run and the function never returns its model.  The
result is the (unchanged) job object `self`, the heap state of the
unpickled model at the moment of the raise, and the raised error. -/
def loadRestartFile (self : RMGJob) (checkpoint : RestartModel) :
    RMGJob × RestartModel × Option PyError :=
  let reactionModel := checkpoint
  let reactionModel :=
    { reactionModel with termination := rebindTermination reactionModel }
  (self, reactionModel, some (PyError.nameError "reactionSystems"))

/-- Lines 245-246 of `execute`: the restart branch calls
`self.loadRestartFile(os.path.join(self.outputDirectory, 'restart.pkl.gz'))`
as a bare statement, discarding its return value; any raised exception
propagates. -/
def executeRestartBranch (self : RMGJob) (checkpoint : RestartModel) :
    RMGJob × Option PyError :=
  let r := loadRestartFile self checkpoint
  (r.1, r.2.2)

/-! ## Helper lemmas about the loop embedding -/

/-- `done` survives the pass over the reaction systems exactly when no
system flagged an object. -/
theorem surveySystems_done_iff (leak : Nat → Nat → Nat) (idx : Nat)
    (results : List SimResult) :
    (surveySystems leak idx results).1 = true ↔ ∀ r ∈ results, r.obj = none := by
  induction results generalizing idx with
  | nil => simp [surveySystems]
  | cons r rest ih =>
      simp [surveySystems, Bool.and_eq_true, Option.isNone_iff_eq_none,
        ih (idx + 1)]

/-- `allTerminated` holds after the pass exactly when every system reported
`terminated = True`. -/
theorem surveySystems_allTerminated_iff (leak : Nat → Nat → Nat) (idx : Nat)
    (results : List SimResult) :
    (surveySystems leak idx results).2.2 = true ↔
      ∀ r ∈ results, r.terminated = true := by
  induction results generalizing idx with
  | nil => simp [surveySystems]
  | cons r rest ih => simp [surveySystems, Bool.and_eq_true, ih (idx + 1)]

/-- A species id is among the accumulated `objectsToEnlarge` exactly when
some system flagged that species. -/
theorem species_mem_surveyObjs (leak : Nat → Nat → Nat) (idx : Nat)
    (results : List SimResult) (s : Nat) :
    EnlargeObject.species s ∈ (surveySystems leak idx results).2.1 ↔
      ∃ r ∈ results, r.obj = some (SimObject.species s) := by
  induction results generalizing idx with
  | nil => simp [surveySystems]
  | cons r rest ih =>
      rcases hobj : r.obj with _ | o
      · simp [surveySystems, objOf, hobj, ih (idx + 1)]
      · cases o with
        | species i =>
            simp [surveySystems, objOf, hobj, ih (idx + 1)]
            constructor <;> rintro (h | h)
            · exact Or.inl h.symm
            · exact Or.inr h
            · exact Or.inl h.symm
            · exact Or.inr h
        | network n =>
            simp [surveySystems, objOf, hobj, ih (idx + 1)]

/-- A list of enlarge events contains no prune event at any position. -/
theorem mapEnlarge_getElem?_ne_prune (l : List EnlargeObject) (i : Nat) :
    (l.map ModelEvent.enlarge)[i]? ≠ some ModelEvent.prune := by
  rw [List.getElem?_map]
  rcases l[i]? with _ | a <;> simp

/-! ## Claims about a single iteration (C2, C3) -/

/-- Claim C2: within any single iteration of the control loop that is not
done, `prune` is invoked if and only if every reaction system reported
`terminated = True` in that iteration, and whenever `prune` is invoked it
occurs strictly before every `enlarge` event of the same iteration, so
pruning never observes objects introduced by that iteration's
enlargement. -/
theorem C2_prune_iff_allTerminated_and_precedes_enlarge
    (leak : Nat → Nat → Nat) (results : List SimResult)
    (hnotdone : (surveySystems leak 0 results).1 = false) :
    ((ModelEvent.prune ∈ iterationTrace leak results) ↔
      ∀ r ∈ results, r.terminated = true)
  ∧ ∀ i j : Nat, (iterationTrace leak results)[i]? = some ModelEvent.prune →
      (∃ o, (iterationTrace leak results)[j]? = some (ModelEvent.enlarge o)) →
      i < j := by
  have htrace : iterationTrace leak results =
      (if (surveySystems leak 0 results).2.2 then [ModelEvent.prune] else []) ++
        ((surveySystems leak 0 results).2.1.dedup.map ModelEvent.enlarge) := by
    simp [iterationTrace, iterationEvents, hnotdone]
  constructor
  · rw [htrace, ← surveySystems_allTerminated_iff leak 0 results]
    rcases (surveySystems leak 0 results).2.2 with _ | _ <;> simp
  · intro i j hi hj
    rw [htrace] at hi hj
    rcases hAT : (surveySystems leak 0 results).2.2 with _ | _
    · rw [hAT] at hi
      simp only [Bool.false_eq_true, if_false, List.nil_append] at hi
      exact absurd hi (mapEnlarge_getElem?_ne_prune _ i)
    · rw [hAT] at hi hj
      simp only [if_true, List.singleton_append] at hi hj
      obtain ⟨o, hj⟩ := hj
      cases i with
      | zero =>
          cases j with
          | zero => simp at hj
          | succ k => exact Nat.succ_pos k
      | succ k =>
          rw [List.getElem?_cons_succ] at hi
          exact absurd hi (mapEnlarge_getElem?_ne_prune _ k)

/-- Witness for C2: one system terminated and flagged species 5; the
iteration is not done, and a prune event is emitted. -/
theorem C2_witness :
    ModelEvent.prune ∈ iterationTrace (fun _ _ => 0)
      [{ terminated := true, obj := some (SimObject.species 5) }] :=
  ((C2_prune_iff_allTerminated_and_precedes_enlarge (fun _ _ => 0)
      [{ terminated := true, obj := some (SimObject.species 5) }]
      (by decide)).1).mpr (by decide)

/-- Claim C3: the flagged objects returned by all reaction systems are
accumulated and deduplicated by identity before enlargement, so a species
flagged by two or more reaction systems in one iteration receives exactly
one enlarge call in that iteration. -/
theorem C3_duplicate_flags_one_enlarge (leak : Nat → Nat → Nat)
    (results : List SimResult) (s : Nat)
    (h : 2 ≤ results.countP fun r => decide (r.obj = some (SimObject.species s))) :
    (iterationTrace leak results).count
      (ModelEvent.enlarge (EnlargeObject.species s)) = 1 := by
  have hpos : 0 < results.countP fun r => decide (r.obj = some (SimObject.species s)) :=
    lt_of_lt_of_le Nat.zero_lt_two h
  obtain ⟨r, hmem, hp⟩ := List.countP_pos_iff.mp hpos
  have hr : r.obj = some (SimObject.species s) := of_decide_eq_true hp
  have hnotdone : (surveySystems leak 0 results).1 = false := by
    rcases hd : (surveySystems leak 0 results).1 with _ | _
    · rfl
    · exact absurd ((surveySystems_done_iff leak 0 results).mp hd r hmem)
        (by simp [hr])
  have hmemObj : EnlargeObject.species s ∈ (surveySystems leak 0 results).2.1 :=
    (species_mem_surveyObjs leak 0 results s).mpr ⟨r, hmem, hr⟩
  have htrace : iterationTrace leak results =
      (if (surveySystems leak 0 results).2.2 then [ModelEvent.prune] else []) ++
        ((surveySystems leak 0 results).2.1.dedup.map ModelEvent.enlarge) := by
    simp [iterationTrace, iterationEvents, hnotdone]
  rw [htrace, List.count_append]
  have h1 : (if (surveySystems leak 0 results).2.2 then [ModelEvent.prune]
      else []).count (ModelEvent.enlarge (EnlargeObject.species s)) = 0 := by
    rcases (surveySystems leak 0 results).2.2 with _ | _ <;>
      simp [List.count_cons]
  rw [h1, Nat.zero_add,
    List.count_map_of_injective _ ModelEvent.enlarge
      (fun a b hab => by injection hab) _,
    List.count_dedup]
  simp [hmemObj]

/-- Witness for C3: two systems flag the same species 7; exactly one
enlarge event for it is emitted. -/
theorem C3_witness :
    (iterationTrace (fun _ _ => 0)
        [{ terminated := true, obj := some (SimObject.species 7) },
         { terminated := false, obj := some (SimObject.species 7) }]).count
      (ModelEvent.enlarge (EnlargeObject.species 7)) = 1 :=
  C3_duplicate_flags_one_enlarge (fun _ _ => 0) _ 7 (by decide)

/-! ## Claims about the whole loop (C1, C5) -/

/-- Counterexample to claim C1 as stated: with a single reaction system
that reports terminated = False and flags no object, `done` still evaluates
true for that iteration — only the flagged objects enter the `done`
computation (line 329), never the terminated flags — and the run ends after
one iteration with MODEL GENERATION COMPLETED even though the system never
terminated. -/
theorem C1_counterexample :
    (surveySystems (fun _ _ => 0) 0 [{ terminated := false, obj := none }]).1
      = true
  ∧ ([{ terminated := false, obj := none }] : List SimResult).all
      (fun r => r.terminated) = false
  ∧ runLoop (fun _ _ => 0) (fun _ => [{ terminated := false, obj := none }])
      (fun _ => 0) 0 1 0 [] = some (ExitReason.completed, 1) :=
  ⟨by decide, by decide,
    by norm_num [runLoop, shouldStopWallTime, surveySystems]⟩

/-- Claim C1 (amended): `done` is true for an iteration if and only if
every reaction system flagged no object in that iteration — the terminated
flags are not consulted for `done` —; the loop exits with MODEL GENERATION
COMPLETED exactly when `done` evaluates true before any enlargement of that
round and the wall-time early return does not fire at the end of that same
iteration; in particular, a run in which every system flags nothing (and
reports terminated) in the first iteration ends after exactly one iteration
with no enlarge call. -/
theorem C1_done_and_completion
    (leak : Nat → Nat → Nat) (sims : Nat → List SimResult)
    (times : Nat → ℚ) (wallTime : ℚ) :
    (∀ results : List SimResult,
      (surveySystems leak 0 results).1 = true ↔ ∀ r ∈ results, r.obj = none)
  ∧ (∀ fuel iter n : Nat, ∀ execTime : List ℚ,
      runLoop leak sims times wallTime fuel iter execTime =
        some (ExitReason.completed, n) →
      (surveySystems leak 0 (sims (n - 1))).1 = true)
  ∧ (∀ fuel iter : Nat, ∀ execTime : List ℚ,
      (surveySystems leak 0 (sims iter)).1 = true →
      shouldStopWallTime wallTime (execTime ++ [times iter]) = false →
      runLoop leak sims times wallTime (fuel + 1) iter execTime =
        some (ExitReason.completed, iter + 1))
  ∧ ((∀ r ∈ sims 0, r.terminated = true ∧ r.obj = none) →
      ∀ fuel : Nat,
      runLoop leak sims times wallTime (fuel + 1) 0 [] =
        some (ExitReason.completed, 1)
      ∧ iterationTrace leak (sims 0) = []) := by
  have part2 : ∀ fuel iter n : Nat, ∀ execTime : List ℚ,
      runLoop leak sims times wallTime fuel iter execTime =
        some (ExitReason.completed, n) →
      (surveySystems leak 0 (sims (n - 1))).1 = true := by
    intro fuel
    induction fuel with
    | zero =>
        intro iter n et h
        simp [runLoop] at h
    | succ f ih =>
        intro iter n et h
        rw [runLoop] at h
        split at h
        · simp at h
        · split at h
          · rename_i hdone
            simp only [Option.some.injEq, Prod.mk.injEq, true_and] at h
            rw [← h, Nat.add_sub_cancel]
            exact hdone
          · exact ih (iter + 1) n _ h
  have part3 : ∀ fuel iter : Nat, ∀ execTime : List ℚ,
      (surveySystems leak 0 (sims iter)).1 = true →
      shouldStopWallTime wallTime (execTime ++ [times iter]) = false →
      runLoop leak sims times wallTime (fuel + 1) iter execTime =
        some (ExitReason.completed, iter + 1) := by
    intro fuel iter et hdone hstop
    rw [runLoop, hstop, hdone]
    simp
  refine ⟨fun results => surveySystems_done_iff leak 0 results, part2, part3,
    fun hall fuel => ?_⟩
  have hdone : (surveySystems leak 0 (sims 0)).1 = true :=
    (surveySystems_done_iff leak 0 (sims 0)).mpr fun r hr => (hall r hr).2
  have hstop : shouldStopWallTime wallTime ([] ++ [times 0]) = false := by
    simp [shouldStopWallTime]
  exact ⟨part3 fuel 0 [] hdone hstop,
    by simp [iterationTrace, iterationEvents, hdone]⟩

/-- Witness for C1: the one-system, one-iteration convergence scenario,
obtained from the amended theorem at concrete inputs. -/
theorem C1_witness :
    runLoop (fun _ _ => 0) (fun _ => [{ terminated := true, obj := none }])
        (fun _ => 0) 0 1 0 [] = some (ExitReason.completed, 1)
  ∧ iterationTrace (fun _ _ => 0) [{ terminated := true, obj := none }] = [] :=
  (C1_done_and_completion (fun _ _ => 0)
      (fun _ => [{ terminated := true, obj := none }]) (fun _ => 0) 0).2.2.2
    (by decide) 0

/-- Claim C5 (evaluation of the code at the failing input): the wall-time
stop condition of lines 405-408 fires exactly as the claim computes —
cumulative times [10, 12] under budget 40 continue (12 + 3·2 = 18 < 40)
while [10, 20] under budget 40 stop (20 + 3·10 = 50 > 40) — and a run whose
first two iterations end at cumulative times 10 and 20 under budget 40
takes the early-stop branch right after its second iteration.  The code
then crashes: line 414 reads the bare name `reactionModel`, which is
unbound in `execute` (the attribute is `self.reactionModel`), so the job
raises `NameError` instead of reporting the current model size and
returning gracefully as the claim describes. -/
theorem C5_walltime_stop_condition :
    shouldStopWallTime 40 [10, 12] = false
  ∧ shouldStopWallTime 40 [10, 20] = true
  ∧ runLoop (fun _ _ => 0)
      (fun _ => [{ terminated := true, obj := some (SimObject.species 1) }])
      (fun i => if i = 0 then 10 else 20) 40 5 0 [] =
      some (ExitReason.walltimeStop, 2) :=
  ⟨by simp [shouldStopWallTime]; norm_num,
    by simp [shouldStopWallTime]; norm_num,
    by norm_num [runLoop, shouldStopWallTime, surveySystems, objOf]⟩

/-! ## Claim C4: wall-time parsing -/

/-- A wall-time string splitting into other than one field is not the
literal string '0', whose split is the single field '0'. -/
theorem ne_zero_string_of_split_length (w : String)
    (h : (splitFields w.data).length ≠ 1) : w ≠ "0" := by
  intro hw
  subst hw
  exact h rfl

/-- Claim C4: the literal wall-time string '0' yields no budget
(`wallTime = 0`); a string of k colon-separated integer fields with
1 ≤ k ≤ 4 yields the budget s, 60·m + s, 3600·h + 60·m + s, or
86400·d + 3600·h + 60·m + s seconds respectively; and a string of more
than four colon-separated fields raises (the `ValueError` of line 238),
so the job does not start. -/
theorem C4_wallTime_parsing :
    (setWallTime "0" = Except.ok 0)
  ∧ (∀ (w : String) (a : List Char) (av : Int),
      splitFields w.data = [a] → pyInt a = some av →
      setWallTime w = Except.ok av)
  ∧ (∀ (w : String) (b a : List Char) (bv av : Int),
      splitFields w.data = [b, a] → pyInt b = some bv → pyInt a = some av →
      setWallTime w = Except.ok (av + 60 * bv))
  ∧ (∀ (w : String) (c b a : List Char) (cv bv av : Int),
      splitFields w.data = [c, b, a] →
      pyInt c = some cv → pyInt b = some bv → pyInt a = some av →
      setWallTime w = Except.ok (av + 60 * bv + 3600 * cv))
  ∧ (∀ (w : String) (d c b a : List Char) (dv cv bv av : Int),
      splitFields w.data = [d, c, b, a] →
      pyInt d = some dv → pyInt c = some cv → pyInt b = some bv →
      pyInt a = some av →
      setWallTime w = Except.ok (av + 60 * bv + 3600 * cv + 86400 * dv))
  ∧ (∀ w : String, 4 < (splitFields w.data).length →
      ∃ msg, setWallTime w = Except.error msg) := by
  refine ⟨by simp [setWallTime], ?_, ?_, ?_, ?_, ?_⟩
  · intro w a av h hp
    by_cases hw : w = "0"
    · subst hw
      have h0 : splitFields (String.data "0") = [['0']] := rfl
      rw [h0] at h
      injection h with ha _
      subst ha
      rw [show pyInt ['0'] = some (0 : Int) from rfl] at hp
      injection hp with hv
      simp [setWallTime, ← hv]
    · simp [setWallTime, hw, h, intField, hp]
  · intro w b a bv av h hb ha
    have hw : w ≠ "0" := ne_zero_string_of_split_length w (by rw [h]; simp)
    simp [setWallTime, hw, h, intField, ha, hb, Except.bind, Bind.bind,
      Except.instMonad]
  · intro w c b a cv bv av h hc hb ha
    have hw : w ≠ "0" := ne_zero_string_of_split_length w (by rw [h]; simp)
    simp [setWallTime, hw, h, intField, ha, hb, hc, Except.bind, Bind.bind,
      Except.instMonad]
  · intro w d c b a dv cv bv av h hd hc hb ha
    have hw : w ≠ "0" := ne_zero_string_of_split_length w (by rw [h]; simp)
    simp [setWallTime, hw, h, intField, ha, hb, hc, hd, Except.bind,
      Bind.bind, Except.instMonad]
  · intro w h
    have hw : w ≠ "0" := ne_zero_string_of_split_length w (by omega)
    rcases hsp : splitFields w.data with
      _ | ⟨e1, _ | ⟨e2, _ | ⟨e3, _ | ⟨e4, _ | ⟨e5, rest⟩⟩⟩⟩⟩
    · rw [hsp] at h; simp at h
    · rw [hsp] at h; simp at h
    · rw [hsp] at h; simp at h
    · rw [hsp] at h; simp at h
    · rw [hsp] at h; simp at h
    · refine ⟨"Invalid format for wall time; should be HH:MM:SS.", ?_⟩
      simp [setWallTime, hw, hsp]

/-- Witness for C4: '1:2:3' parses as 1 hour, 2 minutes, 3 seconds = 3723
seconds, and the five-field string '1:2:3:4:5' is rejected. -/
theorem C4_witness :
    setWallTime "1:2:3" = Except.ok 3723
  ∧ ∃ msg, setWallTime "1:2:3:4:5" = Except.error msg := by
  constructor
  · have h := C4_wallTime_parsing.2.2.2.1 "1:2:3" ['1'] ['2'] ['3'] 1 2 3
      (by decide) (by decide) (by decide) (by decide)
    rw [h]
    norm_num
  · exact C4_wallTime_parsing.2.2.2.2.2 "1:2:3:4:5" (by decide)

/-! ## Claim C6: the save guard -/

/-- Claim C6: for every call to `saveRestartFile(path, model, delay)`: if a
file already exists at `path` and its age (now minus its modification
time) is less than `delay`, the call returns without writing and the
existing file is left unchanged; otherwise — in particular whenever
`delay = 0`, for any existing file written in the past (nonnegative age) —
the model is unconditionally serialized to `path`. -/
theorem C6_saveRestartFile_guard :
    ∀ (now mtime delay : ℚ) (content reactionModel : Nat),
      (now - mtime < delay →
        saveRestartFile now delay (some (mtime, content)) reactionModel =
          some (mtime, content))
    ∧ (¬ now - mtime < delay →
        saveRestartFile now delay (some (mtime, content)) reactionModel =
          some (now, reactionModel))
    ∧ (saveRestartFile now delay (none : Option (ℚ × Nat)) reactionModel =
        some (now, reactionModel))
    ∧ (delay = 0 → mtime ≤ now →
        saveRestartFile now delay (some (mtime, content)) reactionModel =
          some (now, reactionModel)) := by
  intro now mtime delay content reactionModel
  refine ⟨fun h => ?_, fun h => ?_, rfl, fun hd hle => ?_⟩
  · simp [saveRestartFile, h]
  · simp [saveRestartFile, h]
  · subst hd
    have hnl : ¬ now - mtime < 0 := not_lt.mpr (sub_nonneg.mpr hle)
    simp [saveRestartFile, hnl]

/-- Witness for C6: an existing checkpoint aged 2 seconds is kept when the
delay is 5 seconds, and overwritten when the delay is 0. -/
theorem C6_witness :
    saveRestartFile (10 : ℚ) 5 (some ((8 : ℚ), (42 : Nat))) 99 =
      some (8, 42)
  ∧ saveRestartFile (10 : ℚ) 0 (some ((8 : ℚ), (42 : Nat))) 99 =
      some (10, 99) :=
  ⟨(C6_saveRestartFile_guard 10 8 5 42 99).1 (by norm_num),
    (C6_saveRestartFile_guard 10 8 0 42 99).2.2.2 rfl (by norm_num)⟩

/-! ## Claims C7, C8, C10: the restart-loading step -/

/-- Claim C7 (evaluation of the code at the failing input): on every
checkpoint, `loadRestartFile` raises `NameError` at line 499 — the bare
name `reactionSystems` is unbound there — before rebuilding any reaction
system's initial-mole-fraction mapping, and therefore never returns; the
job object, including every reaction system's mapping, is untouched. -/
theorem C7_loadRestartFile_raises :
    ∀ (self : RMGJob) (checkpoint : RestartModel),
      (loadRestartFile self checkpoint).1 = self
    ∧ (loadRestartFile self checkpoint).2.2 =
        some (PyError.nameError "reactionSystems") :=
  fun _ _ => ⟨rfl, rfl⟩

/-- Claim C8 (evaluation of the code at the failing input): the
reaction-family repair pass of lines 506-536 never executes in this
revision — `loadRestartFile` raises at line 499 before reaching it — so
every reaction keeps its old family references, the reaction index keeps
its old family keys, and the pass's no-matching-family exception can never
be raised either. -/
theorem C8_family_repair_never_runs :
    ∀ (self : RMGJob) (checkpoint : RestartModel),
      (loadRestartFile self checkpoint).2.1.reactions = checkpoint.reactions
    ∧ (loadRestartFile self checkpoint).2.1.reactionDict =
        checkpoint.reactionDict
    ∧ ((loadRestartFile self checkpoint).2.2).isSome = true :=
  fun _ _ => ⟨rfl, rfl, rfl⟩

/-- Counterexample to claim C10 as stated: at a concrete job and
checkpoint, `loadRestartFile` does not return the unpickled, repaired
reaction model — it raises `NameError` on the unbound bare name
`reactionSystems` (line 499) — so `execute`'s restart branch propagates an
exception rather than discarding a returned model and proceeding to
iterate. -/
theorem C10_counterexample :
    (loadRestartFile { reactionModel := 0, reactionSystems := [] }
        { speciesList := [], termination := [], reactions := [],
          reactionDict := [] }).2.2 =
      some (PyError.nameError "reactionSystems") := rfl

/-- Claim C10 (amended): the restart-loading step leaves every attribute of
the RMG job object unchanged — `loadRestartFile` assigns to no attribute
of the job, and `execute` discards its return value — so
`self.reactionModel` is still the object produced by reading the input
file; in this revision, however, `loadRestartFile` raises `NameError`
before returning, so the restart branch propagates an exception instead of
completing, and the main loop is never reached (had the call returned, the
iterations would have operated on the input-file model, the restored model
being discarded). -/
theorem C10_restart_branch_frame :
    ∀ (self : RMGJob) (checkpoint : RestartModel),
      (loadRestartFile self checkpoint).1 = self
    ∧ (executeRestartBranch self checkpoint).1 = self
    ∧ (executeRestartBranch self checkpoint).1.reactionModel =
        self.reactionModel
    ∧ ((executeRestartBranch self checkpoint).2).isSome = true :=
  fun _ _ => ⟨rfl, rfl, rfl, rfl⟩

/-! ## Claim C9: the checkpoint does not round-trip -/

/-- Claim C9 (evaluation of the code at the failing input): the checkpoint
does not round-trip through a single compressed file: for every output
directory, the path written by `saveRestartFile` during a job
(`restart.pkl`, lines 273 and 373) differs from the path `execute` reads
when resuming (`restart.pkl.gz`, line 246), and the blob actually written
is a bare pickle with no compression layer, contradicting the comment at
line 557. -/
theorem C9_save_load_path_mismatch :
    ∀ outputDirectory : String,
      ((restartSavePath outputDirectory ==
          restartLoadPath outputDirectory) = false)
    ∧ ∀ m : Nat, savedRestartBlob m = Blob.pickled m := by
  intro d
  refine ⟨?_, fun m => rfl⟩
  rw [beq_eq_false_iff_ne]
  intro hEq
  have hlen := congrArg String.length hEq
  simp only [restartSavePath, restartLoadPath, String.length_append] at hlen
  rw [show ("/restart.pkl" : String).length = 12 from rfl,
    show ("/restart.pkl.gz" : String).length = 15 from rfl] at hlen
  omega

end RMGSpec
